import Mathlib

/-!
Verification of the cxxmetrics repository packaging recipes.

The repository supplies two Conan packaging recipes (conanfile.py and
test/conanfile.py) and a build-matrix driver (build.py) for the header-only
cxxmetrics C++ library.  This development shallowly embeds the recipes:
each recipe method is rendered as a pure function from the configuration it
reads (settings, options, folders) to the observable actions it performs
(file copies, metadata assignments, external commands).

The metrics library itself (counters, reservoirs, ...) is not among the
supplied sources; where a claim is about that library, its operations are
modelled from the specification text and marked as such in their doc
comments.
-/

/-- Result of `os.path.join(a, b)` as invoked by the recipe: the two path
pieces joined with a single separator. -/
def joinPath (a b : String) : String := a ++ "/" ++ b

/-- One invocation of `conan.tools.files.copy`: a filename pattern, the
directory copied from and the directory copied into. -/
structure CopyAction where
  pattern : String
  src : String
  dst : String
deriving DecidableEq

/-- The recipe declares `settings = ("compiler", "os")`; `compiler` carries
the optional sub-setting `compiler.cppstd` (`none` when unset, and
`get_safe("cppstd")` then returns Python `None`). The C++ standard is
identified by its numeric designation (14 for "14" or "gnu14"). -/
structure Settings where
  compiler : String
  cppstd : Option Nat
  os : String

/-- The recipe declares `options = { "with_prometheus": [True, False] }`. -/
structure Options where
  with_prometheus : Bool

/-- An error raised by a recipe method; `validate` raises
`ConanInvalidConfiguration` through `check_min_cppstd`. -/
inductive ConanError where
  | invalidConfiguration (msg : String)
deriving DecidableEq

/-- Conan's add-millennium normalization of a cppstd designation (after any
`gnu` prefix has been stripped): exactly "98" gets the "19" prefix, every
other designation the "20" prefix, so 98 denotes 1998 while 11, 14, 17, 20
denote 2011, 2014, 2017, 2020. -/
def add_millennium (v : Nat) : Nat :=
  if v = 98 then 1900 + v else 2000 + v

/-- `conan.tools.build.check_min_cppstd self required`: raises
`ConanInvalidConfiguration` exactly when the configured `compiler.cppstd`
denotes a standard below the required one, both compared after the
add-millennium normalization (so cppstd 98, normalized to 1998, is below
the required 14, normalized to 2014). -/
def check_min_cppstd (cppstd required : Nat) : Except ConanError Unit :=
  if add_millennium cppstd < add_millennium required then
    Except.error (ConanError.invalidConfiguration "cppstd below the minimum required")
  else
    Except.ok ()

namespace CxxmetricsConan

/-- `CxxmetricsConan.name`. -/
def name : String := "cxxmetrics"

/-- `CxxmetricsConan.default_options = { "with_prometheus": True }`. -/
def default_options : Options := { with_prometheus := true }

/-- `CxxmetricsConan._min_cppstd`, the property returning "14"
(as the numeric standard designation). -/
def min_cppstd : Nat := 14

/-- `CxxmetricsConan.validate` (conanfile.py lines 29-31): when
`compiler.cppstd` is set, run `check_min_cppstd` against `_min_cppstd`;
when it is unset (`get_safe` returns `None`), do nothing. -/
def validate (s : Settings) : Except ConanError Unit :=
  match s.cppstd with
  | none => Except.ok ()
  | some v => check_min_cppstd v min_cppstd

/-- `CxxmetricsConan.package` (conanfile.py lines 36-45), as the list of
copy invocations it performs in order: the `cxxmetrics` headers are always
copied; the `cxxmetrics_prometheus` headers only when `with_prometheus`. -/
def package (source_folder package_folder : String) (opts : Options) :
    List CopyAction :=
  [{ pattern := "*.hpp"
     src := joinPath source_folder "cxxmetrics"
     dst := joinPath package_folder "include/cxxmetrics" }]
  ++ (if opts.with_prometheus then
        [{ pattern := "*.hpp"
           src := joinPath source_folder "cxxmetrics_prometheus"
           dst := joinPath package_folder "include/cxxmetrics_prometheus" }]
      else [])

/-- The `cpp_info` fields assigned by `package_info`.  The recipe sets the
`cmake_file_name` property, and configures a single component (keyed
`component_name`) with its `cmake_find_package` name, `includedirs`, and
(on Linux only) `system_libs`. -/
structure CppInfo where
  cmake_file_name : String
  component_name : String
  cmake_find_package : String
  includedirs : List String
  system_libs : List String
deriving DecidableEq

/-- `CxxmetricsConan.package_info` (conanfile.py lines 47-53).  The options
are in scope for the method but never read; `system_libs` keeps its empty
default except when `settings.os == 'Linux'`. -/
def package_info (s : Settings) (opts : Options) : CppInfo :=
  { cmake_file_name := "cxxmetrics"
    component_name := "cxxmetrics"
    cmake_find_package := "cxxmetrics"
    includedirs := ["include"]
    system_libs := if s.os = "Linux" then ["atomic"] else [] }

end CxxmetricsConan

namespace CxxmetricsTestConan

/-- `CxxmetricsTestConan.build_requires` (test/conanfile.py line 9). -/
def build_requires : String := "catch2/2.3.0@bincrafters/stable"

/-- One step the test recipe performs through its external collaborators:
a CMake configure, a CMake build, or `self.run` of a command line. -/
inductive Step where
  | cmakeConfigure
  | cmakeBuild
  | run (cmd : String)
deriving DecidableEq

/-- `CxxmetricsTestConan.build` (test/conanfile.py lines 16-21):
`cmake.configure()` followed by `cmake.build()`. -/
def build : List Step := [Step.cmakeConfigure, Step.cmakeBuild]

/-- `CxxmetricsTestConan.test` (test/conanfile.py lines 28-30):
`self.run(".%scxxmetrics_test" % os.sep)` unless
`tools.cross_building(self.settings)` holds, in which case nothing runs. -/
def test (os_sep : String) (cross_building : Bool) : List Step :=
  if cross_building then [] else [Step.run ("." ++ os_sep ++ "cxxmetrics_test")]

end CxxmetricsTestConan

/-- Modelled from the spec: the two's-complement bit width of the Counter,
2^64; the Counter implementation itself is not among the supplied sources. -/
def UINT64_MOD : Int := 2 ^ 64

/-- Modelled from the spec: the split point of the int64 range, 2^63. -/
def INT64_HALF : Int := 2 ^ 63

/-- Modelled from the spec: the Counter metric, a signed 64-bit accumulator
(section 4.2); its C++ implementation is absent from the supplied sources.
`bits` is the raw two's-complement bit pattern, kept in `[0, 2^64)`. -/
structure Counter where
  bits : Nat

/-- Modelled from the spec: a freshly created Counter holds zero. -/
def Counter.new : Counter := { bits := 0 }

/-- Modelled from the spec: `increment(delta: int64)` adds the delta with
two's-complement wraparound (section 4.2: arithmetic wraps, no failure). -/
def Counter.increment (c : Counter) (delta : Int) : Counter :=
  { bits := (((c.bits : Int) + delta) % UINT64_MOD).toNat }

/-- Modelled from the spec: `decrement(delta: int64)` subtracts the delta
with two's-complement wraparound. -/
def Counter.decrement (c : Counter) (delta : Int) : Counter :=
  c.increment (-delta)

/-- Modelled from the spec: `value() -> int64` reads the current value,
interpreting the bit pattern as a signed two's-complement number. -/
def Counter.value (c : Counter) : Int :=
  if (c.bits : Int) < INT64_HALF then (c.bits : Int) else (c.bits : Int) - UINT64_MOD

/-- A call in a sequence of Counter mutations: an increment or a decrement,
each carrying its int64 delta argument. -/
inductive CounterOp where
  | increment (delta : Int)
  | decrement (delta : Int)

/-- The signed contribution of one call to the running sum. -/
def CounterOp.delta : CounterOp → Int
  | CounterOp.increment d => d
  | CounterOp.decrement d => -d

/-- Apply one call to a Counter. -/
def Counter.applyOp (c : Counter) : CounterOp → Counter
  | CounterOp.increment d => c.increment d
  | CounterOp.decrement d => c.decrement d

/-- Apply a finite sequence of calls to a Counter, in order. -/
def Counter.applyOps (c : Counter) (ops : List CounterOp) : Counter :=
  ops.foldl Counter.applyOp c

/-- The exact (unbounded) running sum of the deltas of a call sequence. -/
def runningSum : List CounterOp → Int
  | [] => 0
  | op :: t => op.delta + runningSum t

/-- Modelled from the spec: the uniform Reservoir metric (section 4.4); its
C++ implementation is absent from the supplied sources.  It holds a
fixed-capacity sample of the stream plus the arrival count. -/
structure Reservoir where
  capacity : Nat
  count : Nat
  samples : List Int

/-- Modelled from the spec: a Reservoir configured with capacity `c` starts
with no samples and no arrivals seen. -/
def Reservoir.empty (c : Nat) : Reservoir :=
  { capacity := c, count := 0, samples := [] }

/-- Modelled from the spec: `update(value)` for the uniform reservoir
(section 4.4): fill until capacity, then replace a uniformly random
existing slot with probability `capacity/count_seen` for each new arrival
(classic reservoir sampling).  The random draw is passed explicitly as
`j`, reduced to a uniform index in `[0, count_seen)`: the arrival is kept,
at slot `j % count_seen`, exactly when that index falls below capacity. -/
def Reservoir.update (r : Reservoir) (v : Int) (j : Nat) : Reservoir :=
  if r.samples.length < r.capacity then
    { r with count := r.count + 1, samples := r.samples ++ [v] }
  else if j % (r.count + 1) < r.capacity then
    { r with count := r.count + 1, samples := r.samples.set (j % (r.count + 1)) v }
  else
    { r with count := r.count + 1 }

/-- Apply a finite sequence of updates, each a value paired with its random
draw, in order. -/
def Reservoir.applyUpdates (r : Reservoir) (us : List (Int × Nat)) : Reservoir :=
  us.foldl (fun acc u => acc.update u.1 u.2) r

theorem joinPath_length (a b : String) :
    (joinPath a b).length = a.length + 1 + b.length := by
  have h : ("/" : String).length = 1 := by decide
  simp only [joinPath, String.length_append]
  omega

/-- Claim C1: every invocation of `package()` copies the `*.hpp` files under
the source folder's `cxxmetrics` directory into `include/cxxmetrics` under
the package folder, whatever the options are. -/
theorem package_copies_cxxmetrics_headers (sf pf : String) (o : Options) :
    ({ pattern := "*.hpp", src := joinPath sf "cxxmetrics",
       dst := joinPath pf "include/cxxmetrics" } : CopyAction)
      ∈ CxxmetricsConan.package sf pf o := by
  obtain ⟨wp⟩ := o
  cases wp <;> simp [CxxmetricsConan.package]

/-- Claim C2: `package_info()` declares the `atomic` system library exactly
when the `os` setting equals `Linux`; on every other platform `system_libs`
stays empty. -/
theorem package_info_atomic_iff_linux (s : Settings) (o : Options) :
    ("atomic" ∈ (CxxmetricsConan.package_info s o).system_libs ↔ s.os = "Linux") ∧
      (s.os ≠ "Linux" → (CxxmetricsConan.package_info s o).system_libs = []) := by
  unfold CxxmetricsConan.package_info
  by_cases h : s.os = "Linux" <;> simp [h]

/-- Claim C3: the `cxxmetrics_prometheus` headers are copied into
`include/cxxmetrics_prometheus` exactly when `with_prometheus` is true, and
`with_prometheus` defaults to true. -/
theorem package_prometheus_copy_iff_option (sf pf : String) (o : Options) :
    (({ pattern := "*.hpp", src := joinPath sf "cxxmetrics_prometheus",
        dst := joinPath pf "include/cxxmetrics_prometheus" } : CopyAction)
        ∈ CxxmetricsConan.package sf pf o ↔ o.with_prometheus = true) ∧
      CxxmetricsConan.default_options.with_prometheus = true := by
  refine ⟨?_, rfl⟩
  obtain ⟨wp⟩ := o
  cases wp
  · simp only [CxxmetricsConan.package]
    constructor
    · intro hmem
      simp only [if_neg, Bool.false_eq_true, if_false, List.append_nil,
        List.mem_singleton] at hmem
      have hlen := congrArg (fun c : CopyAction => c.src.length) hmem
      simp only [joinPath_length] at hlen
      have h1 : ("cxxmetrics_prometheus" : String).length = 21 := by decide
      have h2 : ("cxxmetrics" : String).length = 10 := by decide
      omega
    · intro hfalse
      exact absurd hfalse (by decide)
  · simp [CxxmetricsConan.package]

/-- Claim C4: the test-package recipe declares a build requirement on the
catch2 unit-test framework, its `build()` configures and builds via CMake,
and its `test()` executes the compiled `cxxmetrics_test` binary. -/
theorem test_recipe_build_and_run :
    CxxmetricsTestConan.build_requires = "catch2/2.3.0@bincrafters/stable" ∧
      CxxmetricsTestConan.build =
        [CxxmetricsTestConan.Step.cmakeConfigure, CxxmetricsTestConan.Step.cmakeBuild] ∧
      ∀ sep : String, CxxmetricsTestConan.test sep false =
        [CxxmetricsTestConan.Step.run ("." ++ sep ++ "cxxmetrics_test")] :=
  ⟨rfl, rfl, fun _ => rfl⟩

theorem add_millennium_lt_14 (v : Nat) :
    add_millennium v < add_millennium 14 ↔ (v = 98 ∨ v < 14) := by
  by_cases h : v = 98
  · subst h
    norm_num [add_millennium]
  · simp only [add_millennium, if_neg h]
    norm_num [h]
    omega

/-- Claim C8: `validate()` raises a configuration error exactly when
`compiler.cppstd` is set and denotes a C++ standard below 14 under Conan's
add-millennium comparison — that is, when the designation is 98 (C++98,
normalized to 1998) or numerically below 14; when it is unset, `validate()`
succeeds for every compiler and os. -/
theorem validate_error_iff_cppstd_below_14 (s : Settings) :
    ((∃ e, CxxmetricsConan.validate s = Except.error e) ↔
        (∃ v, s.cppstd = some v ∧ add_millennium v < add_millennium 14)) ∧
      (∀ v : Nat, add_millennium v < add_millennium 14 ↔ (v = 98 ∨ v < 14)) ∧
      (s.cppstd = none → CxxmetricsConan.validate s = Except.ok ()) := by
  refine ⟨?_, fun v => add_millennium_lt_14 v, ?_⟩
  · rcases hs : s.cppstd with _ | v
    · simp [CxxmetricsConan.validate, hs]
    · by_cases hv : add_millennium v < add_millennium 14 <;>
        simp [CxxmetricsConan.validate, check_min_cppstd, CxxmetricsConan.min_cppstd, hs, hv]
  · intro h
    simp [CxxmetricsConan.validate, h]

/-- Claim C9: `test()` runs the test binary exactly when the settings do not
indicate cross-building; under cross-building it performs no action. -/
theorem test_skips_under_cross_building (sep : String) (cross : Bool) :
    (CxxmetricsTestConan.test sep cross =
        [CxxmetricsTestConan.Step.run ("." ++ sep ++ "cxxmetrics_test")] ↔
      cross = false) ∧
      CxxmetricsTestConan.test sep true = [] := by
  cases cross <;> simp [CxxmetricsTestConan.test]

/-- Claim C10: for every combination of settings and options,
`package_info()` yields the same cmake file name, component name,
find-package name and include dirs; only `system_libs` depends on the
configuration, and it does so through `os` alone. -/
theorem package_info_constant_metadata (s : Settings) (o : Options) :
    (CxxmetricsConan.package_info s o).cmake_file_name = "cxxmetrics" ∧
      (CxxmetricsConan.package_info s o).component_name = "cxxmetrics" ∧
      (CxxmetricsConan.package_info s o).cmake_find_package = "cxxmetrics" ∧
      (CxxmetricsConan.package_info s o).includedirs = ["include"] ∧
      (CxxmetricsConan.package_info s o).system_libs =
        (if s.os = "Linux" then ["atomic"] else []) :=
  ⟨rfl, rfl, rfl, rfl, rfl⟩

theorem UINT64_MOD_ne_zero : UINT64_MOD ≠ 0 := by
  unfold UINT64_MOD
  norm_num

theorem emod_add_cancel (a b : Int) :
    (a % UINT64_MOD + b) % UINT64_MOD = (a + b) % UINT64_MOD := by
  conv_lhs => rw [Int.add_emod]
  rw [Int.emod_emod_of_dvd a dvd_rfl, ← Int.add_emod]

theorem Counter.increment_bits (c : Counter) (d : Int) :
    ((c.increment d).bits : Int) = ((c.bits : Int) + d) % UINT64_MOD := by
  unfold Counter.increment
  exact Int.toNat_of_nonneg (Int.emod_nonneg _ UINT64_MOD_ne_zero)

theorem Counter.applyOps_bits (ops : List CounterOp) :
    ∀ c : Counter, ((c.applyOps ops).bits : Int) % UINT64_MOD
      = ((c.bits : Int) + runningSum ops) % UINT64_MOD := by
  induction ops with
  | nil =>
      intro c
      simp [Counter.applyOps, runningSum]
  | cons op t ih =>
      intro c
      have hstep : c.applyOps (op :: t) = (c.applyOp op).applyOps t := rfl
      rw [hstep, ih]
      cases op with
      | increment d =>
          simp only [Counter.applyOp, Counter.increment_bits, runningSum,
            CounterOp.delta, emod_add_cancel]
          rw [add_assoc]
      | decrement d =>
          simp only [Counter.applyOp, Counter.decrement, Counter.increment_bits,
            runningSum, CounterOp.delta, emod_add_cancel]
          rw [add_assoc]

theorem Counter.value_emod (c : Counter) :
    c.value % UINT64_MOD = (c.bits : Int) % UINT64_MOD := by
  unfold Counter.value
  split
  · rfl
  · rw [Int.sub_emod, Int.emod_self, sub_zero, Int.emod_emod_of_dvd _ dvd_rfl]

/-- Claim C6: for every finite sequence of increment and decrement calls on
a fresh Counter, `value()` agrees with the exact running sum of the signed
deltas modulo 2^64 (two's-complement wraparound, never a failure). -/
theorem counter_value_eq_running_sum_mod (ops : List CounterOp) :
    (Counter.new.applyOps ops).value % UINT64_MOD = runningSum ops % UINT64_MOD := by
  rw [Counter.value_emod, Counter.applyOps_bits]
  simp [Counter.new]

theorem Reservoir.update_capacity (r : Reservoir) (v : Int) (j : Nat) :
    (r.update v j).capacity = r.capacity := by
  unfold Reservoir.update
  split
  · rfl
  · split <;> rfl

theorem Reservoir.update_length (r : Reservoir) (v : Int) (j : Nat) :
    (r.update v j).samples.length =
      if r.samples.length < r.capacity then r.samples.length + 1
      else r.samples.length := by
  unfold Reservoir.update
  split
  · simp_all
  · split <;> simp_all

theorem Reservoir.applyUpdates_length (us : List (Int × Nat)) :
    ∀ r : Reservoir, r.samples.length ≤ r.capacity →
      (r.applyUpdates us).samples.length = min (r.samples.length + us.length) r.capacity := by
  induction us with
  | nil =>
      intro r h
      simp only [Reservoir.applyUpdates, List.foldl_nil, List.length_nil]
      omega
  | cons u t ih =>
      intro r h
      have hcap := Reservoir.update_capacity r u.1 u.2
      have hlen := Reservoir.update_length r u.1 u.2
      have hstep : r.applyUpdates (u :: t) = (r.update u.1 u.2).applyUpdates t := rfl
      have hle : (r.update u.1 u.2).samples.length ≤ (r.update u.1 u.2).capacity := by
        rw [hlen, hcap]
        split <;> omega
      rw [hstep, ih (r.update u.1 u.2) hle, hcap]
      rcases Nat.lt_or_ge r.samples.length r.capacity with hc | hc
      · rw [if_pos hc] at hlen
        rw [hlen]
        simp only [List.length_cons]
        omega
      · rw [if_neg (Nat.not_lt.mpr hc)] at hlen
        rw [hlen]
        simp only [List.length_cons]
        omega

/-- Claim C7: for every capacity and every update sequence, the uniform
Reservoir stores at most capacity-many samples, and once at least
capacity-many arrivals have been seen it holds exactly capacity-many. -/
theorem reservoir_size_bounded_and_full (C : Nat) (us : List (Int × Nat)) :
    ((Reservoir.empty C).applyUpdates us).samples.length ≤ C ∧
      (C ≤ us.length →
        ((Reservoir.empty C).applyUpdates us).samples.length = C) := by
  have h := Reservoir.applyUpdates_length us (Reservoir.empty C)
    (by simp [Reservoir.empty])
  have h1 : (Reservoir.empty C).samples.length = 0 := rfl
  have h2 : (Reservoir.empty C).capacity = C := rfl
  rw [h1, h2] at h
  constructor
  · omega
  · intro hNC
    omega
